import Mathlib

/-!
Shallow embedding of the frame-decoding and aggregation core of
`src/scripts/zigbee-log-analyser.py`, together with theorems settling the
specification claims about it.

Python strings are modelled as `List Char` (ASCII is all that the decoders
touch).  Python `int(s, 16)` / `int(s)` are modelled as `Option`-valued
parsers; a `ValueError` that the source code does not catch is modelled as
the `Except.error` case of the surrounding function.
-/

set_option autoImplicit false

namespace ZigbeeLog

abbrev PyStr := List Char

instance {ε α : Type} [DecidableEq ε] [DecidableEq α] : DecidableEq (Except ε α) :=
  fun a b =>
    match a, b with
    | .ok x, .ok y => if h : x = y then isTrue (by rw [h]) else isFalse (by simp [h])
    | .error x, .error y => if h : x = y then isTrue (by rw [h]) else isFalse (by simp [h])
    | .ok _, .error _ => isFalse (by simp)
    | .error _, .ok _ => isFalse (by simp)

def pyStr (s : String) : PyStr := s.data

/-- Python `str.upper` on one character, restricted to ASCII (the decoders
only ever see ASCII input). -/
def pyUpperChar (c : Char) : Char :=
  if 'a' ≤ c ∧ c ≤ 'z' then Char.ofNat (c.toNat - 32) else c

/-- Python `str.upper` (ASCII). -/
def pyUpper (s : PyStr) : PyStr := s.map pyUpperChar

/-- Python `str.lower` on one character, restricted to ASCII. -/
def pyLowerChar (c : Char) : Char :=
  if 'A' ≤ c ∧ c ≤ 'Z' then Char.ofNat (c.toNat + 32) else c

/-- Python `str.lower` (ASCII). -/
def pyLower (s : PyStr) : PyStr := s.map pyLowerChar

/-- ASCII whitespace, as recognised by Python `str.strip` / `int`. -/
def isPyWs (c : Char) : Bool :=
  c == ' ' || c == '\t' || c == '\n' || c == '\r' || c == '\x0b' || c == '\x0c'

/-- Python `str.strip()` (ASCII whitespace). -/
def pyStrip (s : PyStr) : PyStr :=
  ((s.dropWhile isPyWs).reverse.dropWhile isPyWs).reverse

/-- Python `s.replace('0X', '')`: remove every (left-to-right, non-overlapping)
occurrence of the two-character pattern `0X`. -/
def pyRemove0X : PyStr → PyStr
  | [] => []
  | [c] => [c]
  | a :: b :: rest =>
    if a = '0' ∧ b = 'X' then pyRemove0X rest
    else a :: pyRemove0X (b :: rest)

/-- Value of one hexadecimal digit character (either case), as accepted by
Python `int(_, 16)`. -/
def hexDigitVal? (c : Char) : Option Nat :=
  if '0' ≤ c ∧ c ≤ '9' then some (c.toNat - '0'.toNat)
  else if 'a' ≤ c ∧ c ≤ 'f' then some (c.toNat - 'a'.toNat + 10)
  else if 'A' ≤ c ∧ c ≤ 'F' then some (c.toNat - 'A'.toNat + 10)
  else none

def hexAccum (acc : Option Nat) (c : Char) : Option Nat :=
  match acc with
  | none => none
  | some a => (hexDigitVal? c).map (fun d => a * 16 + d)

/-- Value of a non-empty string of hex digits; `none` if empty or any
character is not a hex digit. -/
def hexDigitsVal? (l : PyStr) : Option Nat :=
  match l with
  | [] => none
  | _ => l.foldl hexAccum (some 0)

/-- Python `int(s, 16)`: surrounding ASCII whitespace is stripped and an
optional `0x`/`0X` radix marker is accepted before the digits.
Model restriction: a leading `+`/`-` sign and `_` digit grouping are folded
into the failure case; none of the verified properties involve signed or
grouped hex strings. -/
def pyIntHex? (s : PyStr) : Option Nat :=
  match pyStrip s with
  | '0' :: 'x' :: rest => hexDigitsVal? rest
  | '0' :: 'X' :: rest => hexDigitsVal? rest
  | t => hexDigitsVal? t

def decDigitVal? (c : Char) : Option Nat :=
  if '0' ≤ c ∧ c ≤ '9' then some (c.toNat - '0'.toNat) else none

def decAccum (acc : Option Nat) (c : Char) : Option Nat :=
  match acc with
  | none => none
  | some a => (decDigitVal? c).map (fun d => a * 10 + d)

def decDigitsVal? (l : PyStr) : Option Nat :=
  match l with
  | [] => none
  | _ => l.foldl decAccum (some 0)

/-- Python `int(s)` (base 10), with an optional leading minus sign. -/
def pyIntDec? (s : PyStr) : Option Int :=
  match pyStrip s with
  | '-' :: rest => (decDigitsVal? rest).map (fun n => -(n : Int))
  | t => (decDigitsVal? t).map (fun n => (n : Int))

/-- Uppercase hex digit character for a value below 16. -/
def hexDigitChar (n : Nat) : Char :=
  if n < 10 then Char.ofNat ('0'.toNat + n) else Char.ofNat ('A'.toNat + n - 10)

/-- Hex digits of `n`, least-significant first, with explicit fuel so that the
recursion is structural (fuel `n` always suffices). -/
def natToHexRevFuel : Nat → Nat → List Char
  | 0, _ => []
  | fuel + 1, n => if n = 0 then [] else hexDigitChar (n % 16) :: natToHexRevFuel fuel (n / 16)

def natToHexRev (n : Nat) : List Char := natToHexRevFuel n n

/-- Python format specification `0{w}X`: uppercase hex, left-padded with
zeros to width `w` (never truncated); the digit string of 0 is `0`. -/
def pyFormatHex (w : Nat) (n : Nat) : PyStr :=
  List.replicate
      (w - (if natToHexRev n = [] then ['0'] else (natToHexRev n).reverse).length) '0' ++
    (if natToHexRev n = [] then ['0'] else (natToHexRev n).reverse)

/-- Python `needle in hay` for strings (contiguous substring test). -/
def isSubList : PyStr → PyStr → Bool
  | needle, [] => needle.isEmpty
  | needle, c :: rest => needle.isPrefixOf (c :: rest) || isSubList needle rest

/-- Python `str.split()` with no argument: split on runs of whitespace,
dropping empty tokens. -/
def pySplitWsAux : PyStr → PyStr → List PyStr
  | [], acc => if acc.isEmpty then [] else [acc.reverse]
  | c :: rest, acc =>
    if isPyWs c then
      (if acc.isEmpty then pySplitWsAux rest [] else acc.reverse :: pySplitWsAux rest [])
    else pySplitWsAux rest (c :: acc)

def pySplitWs (s : PyStr) : List PyStr := pySplitWsAux s []

/-- Character classes of the text-line regular expression (line 87 of the
source): `[0-9A-Fa-f]`, `[0-9]`, and the uppercase-hex output alphabet,
assembled from the three constituent ranges. -/
def digitChars : List Char :=
  ['0', '1', '2', '3', '4'] ++ ['5', '6', '7', '8', '9']

def lowerHexLetters : List Char := ['a', 'b', 'c'] ++ ['d', 'e', 'f']

def upperHexLetters : List Char := ['A', 'B', 'C'] ++ ['D', 'E', 'F']

def hexChars : List Char := digitChars ++ lowerHexLetters ++ upperHexLetters

def upperHexChars : List Char := digitChars ++ upperHexLetters

def isHexCh (c : Char) : Bool := decide (c ∈ hexChars)

def isDigitCh (c : Char) : Bool := decide (c ∈ digitChars)

def isUpperHexCh (c : Char) : Bool := decide (c ∈ upperHexChars)

/-! ## ZCL header decoder (`parse_zcl`, lines 108-126) -/

inductive FrameType
  | cluster
  | global
deriving DecidableEq, Repr

inductive ZclDirection
  | server_to_client
  | client_to_server
deriving DecidableEq, Repr

/-- The dictionary returned by `parse_zcl` (line 110): the Python string
values `'cluster'`/`'global'` and `'server_to_client'`/`'client_to_server'`
are modelled by the enumerations above. -/
structure ZclRes where
  fc : Option Nat := none
  frame_type : Option FrameType := none
  manuf_specific : Bool := false
  direction : Option ZclDirection := none
  disable_default_rsp : Bool := false
  manufacturer_code : Option PyStr := none
  sequence : Option Nat := none
  command_id : Option Nat := none
deriving DecidableEq, Repr

/-- `parse_zcl` (lines 108-126).  Only the `int` conversion of byte 0 is
guarded by `try/except` in the source; a failing conversion of any later
byte raises `ValueError`, modelled by `Except.error ()`.  The redundant
`len < idx + 2` guards of lines 121 and 124 are kept as in the source. -/
def parse_zcl (payload_hex : List PyStr) : Except Unit ZclRes :=
  if payload_hex.length < 3 then .ok {}
  else
    match payload_hex with
    | b0 :: b1 :: b2 :: rest =>
      match pyIntHex? b0 with
      | none => .ok {}
      | some fc =>
        let res : ZclRes :=
          { fc := some fc
            frame_type := some (if fc &&& 0x03 = 0x01 then .cluster else .global)
            manuf_specific := decide (fc &&& 0x04 ≠ 0)
            direction := some (if fc &&& 0x08 ≠ 0 then .server_to_client else .client_to_server)
            disable_default_rsp := decide (fc &&& 0x10 ≠ 0) }
        if res.manuf_specific then
          if payload_hex.length < 1 + 2 then .ok res
          else
            match pyIntHex? b1, pyIntHex? b2 with
            | some lo, some hi =>
              let res := { res with manufacturer_code := some (pyFormatHex 4 ((hi <<< 8) ||| lo)) }
              if payload_hex.length < 3 + 2 then .ok res
              else
                match rest with
                | b3 :: b4 :: _ =>
                  match pyIntHex? b3, pyIntHex? b4 with
                  | some sq, some cmd => .ok { res with sequence := some sq, command_id := some cmd }
                  | _, _ => .error ()
                | _ => .ok res
            | _, _ => .error ()
        else
          if payload_hex.length < 1 + 2 then .ok res
          else
            match pyIntHex? b1, pyIntHex? b2 with
            | some sq, some cmd => .ok { res with sequence := some sq, command_id := some cmd }
            | _, _ => .error ()
    | _ => .ok {}

/-! ## OTA request decoder (`parse_ota_request_payload`, lines 132-167) -/

/-- The dictionary returned by `parse_ota_request_payload`.  All keys that
the specification attributes to OTA requests are present; the source only
ever writes the first seven (`request_node_address` and
`block_request_delay` are never written by the code). -/
structure OtaMeta where
  field_control : Option Nat := none
  manufacturer_id : Option Nat := none
  image_type : Option Nat := none
  file_version : Option Nat := none
  file_offset : Option Nat := none
  max_data_size : Option Nat := none
  status : Option Nat := none
  request_node_address : Option (List Nat) := none
  block_request_delay : Option Nat := none
deriving DecidableEq, Repr

/-- `_u16` (line 129): `(int(hi,16) << 8) | int(lo,16)`. -/
def u16? (lo hi : PyStr) : Option Nat :=
  match pyIntHex? lo, pyIntHex? hi with
  | some l, some h => some ((h <<< 8) ||| l)
  | _, _ => none

/-- `_u32` (line 130). -/
def u32? (b0 b1 b2 b3 : PyStr) : Option Nat :=
  match pyIntHex? b0, pyIntHex? b1, pyIntHex? b2, pyIntHex? b3 with
  | some v0, some v1, some v2, some v3 =>
    some ((v3 <<< 24) ||| (v2 <<< 16) ||| (v1 <<< 8) ||| v0)
  | _, _, _, _ => none

/-- Offset of the OTA body past the ZCL header (line 135):
`1 + (2 if manuf_specific else 0) + 2`. -/
def otaHeaderLen (z : ZclRes) : Nat := 1 + (if z.manuf_specific then 2 else 0) + 2

/-- Fixed minimum body length required by each decodable command shape
(the conditions of lines 141, 149 and 159). -/
def otaMinLen (cmd : Nat) : Nat :=
  if cmd = 0x01 then 1 + 2 + 2 + 4
  else if cmd = 0x03 then 1 + 2 + 2 + 4 + 4 + 1
  else if cmd = 0x06 then 1 + 2 + 2 + 4
  else 0

/-- Command dispatch of `parse_ota_request_payload` (lines 138-165) on the
body bytes past the ZCL header.  The blanket `try/except → None` of the
source means every failed byte conversion collapses to `none`. -/
def parse_ota_data (cmd : Nat) (data : List PyStr) : Option OtaMeta :=
  if data.isEmpty then none
  else if cmd = 0x01 then
    if data.length < otaMinLen 0x01 then none
    else
      match data with
      | d0 :: d1 :: d2 :: d3 :: d4 :: d5 :: d6 :: d7 :: d8 :: _ =>
        match pyIntHex? d0, u16? d1 d2, u16? d3 d4, u32? d5 d6 d7 d8 with
        | some fcv, some m, some it, some fv =>
          some { field_control := some fcv, manufacturer_id := some m,
                 image_type := some it, file_version := some fv }
        | _, _, _, _ => none
      | _ => none
  else if cmd = 0x03 then
    if data.length < otaMinLen 0x03 then none
    else
      match data with
      | d0 :: d1 :: d2 :: d3 :: d4 :: d5 :: d6 :: d7 :: d8 :: d9 :: d10 :: d11 :: d12 :: d13 :: _ =>
        match pyIntHex? d0, u16? d1 d2, u16? d3 d4, u32? d5 d6 d7 d8,
              u32? d9 d10 d11 d12, pyIntHex? d13 with
        | some fcv, some m, some it, some fv, some fo, some mx =>
          some { field_control := some fcv, manufacturer_id := some m,
                 image_type := some it, file_version := some fv,
                 file_offset := some fo, max_data_size := some mx }
        | _, _, _, _, _, _ => none
      | _ => none
  else if cmd = 0x06 then
    if data.length < otaMinLen 0x06 then none
    else
      match data with
      | d0 :: d1 :: d2 :: d3 :: d4 :: d5 :: d6 :: d7 :: d8 :: _ =>
        match pyIntHex? d0, u16? d1 d2, u16? d3 d4, u32? d5 d6 d7 d8 with
        | some st, some m, some it, some fv =>
          some { status := some st, manufacturer_id := some m,
                 image_type := some it, file_version := some fv }
        | _, _, _, _ => none
      | _ => none
  else none

/-- `parse_ota_request_payload` (lines 132-167): compute the offset past
the ZCL header (line 135), require a command id and a non-empty body, and
dispatch on the three decodable command shapes. -/
def parse_ota_request_payload (payload_hex : List PyStr) (z : ZclRes) : Option OtaMeta :=
  match z.command_id with
  | none => none
  | some cmd => parse_ota_data cmd (payload_hex.drop (otaHeaderLen z))

/-! ## Manufacturer code normalization (`normalize_mfr_code`, lines 65-76) -/

/-- `normalize_mfr_code` (lines 65-76), string branch: `str(code).strip()
.upper().replace('0X','')`, then `int(s,16) & 0xFFFF` formatted `04X`, with
the `except` fallback `s[:4]`.  `& 0xFFFF` is written as `% 2 ^ 16`.
The `None` and `int` input branches carry no claim and are not modelled. -/
def normalize_mfr_code (code : PyStr) : PyStr :=
  match pyIntHex? (pyRemove0X (pyUpper (pyStrip code))) with
  | some v => pyFormatHex 4 (v % 2 ^ 16)
  | none => (pyRemove0X (pyUpper (pyStrip code))).take 4

/-! ## Line normalizer (`parse_text_line` lines 89-96, `parse_json_line`
lines 98-106) -/

/-- The canonical frame record built by both normalizers (the dictionary of
lines 96 and 106).  Fields that the structured form may leave `None` are
`Option`-valued; `typeTag` models the dictionary key `type`. -/
structure FrameRecord where
  name : PyStr := []
  network_id : Option Int := none
  device_id : Option Int := none
  profileId : PyStr := []
  clusterId : PyStr := []
  sourceEndpoint : PyStr := []
  destinationEndpoint : PyStr := []
  groupId : PyStr := []
  sequence : Option Int := none
  lqi : Option Int := none
  rssi : Option Int := none
  time : Option PyStr := none
  typeTag : Option PyStr := none
  payload : List PyStr := []
deriving DecidableEq, Repr

/-- Captured groups of the text-line regular expression `_text_re`
(line 87).  The `payload` group, which the regex captures as one string of
space-separated two-hex-digit byte tokens and line 96 splits, is modelled
already split into its byte tokens. -/
structure TextGroups where
  name : PyStr
  id : PyStr
  profile : PyStr
  cluster : PyStr
  se : PyStr
  de : PyStr
  group : PyStr
  seq : PyStr
  lqi : PyStr
  rssi : PyStr
  time : PyStr
  ttype : PyStr
  device : PyStr
  payload : List PyStr
deriving DecidableEq, Repr

def rssiWF : PyStr → Bool
  | '-' :: rest => !rest.isEmpty && rest.all isDigitCh
  | l => !l.isEmpty && l.all isDigitCh

/-- Character-class and width constraints that the regular expression of
line 87 imposes on each captured group. -/
def textGroupsWF (g : TextGroups) : Bool :=
  (!g.id.isEmpty && g.id.all isDigitCh) &&
  (g.profile.length == 4 && g.profile.all isHexCh) &&
  (g.cluster.length == 4 && g.cluster.all isHexCh) &&
  (g.se.length == 2 && g.se.all isHexCh) &&
  ((g.de.length == 2 && g.de.all isHexCh) || g.de == pyStr "FF") &&
  (g.group.length == 4 && g.group.all isHexCh) &&
  (!g.seq.isEmpty && g.seq.all isHexCh) &&
  (!g.lqi.isEmpty && g.lqi.all isDigitCh) &&
  rssiWF g.rssi &&
  (!g.device.isEmpty && g.device.all isDigitCh) &&
  (!g.payload.isEmpty && g.payload.all (fun b => b.length == 2 && b.all isHexCh))

/-- Record construction of `parse_text_line` (lines 93-96) applied to the
captured groups.  The sequence number first tries hex, falling back to
decimal (lines 94-95); the numeric conversions return `none` on failure,
which `textGroupsWF` rules out, mirroring how the regex guarantees the
`int` calls of line 96 cannot fail. -/
def parse_text_line_groups (g : TextGroups) : Option FrameRecord :=
  match (match pyIntHex? g.seq with
         | some v => some (v : Int)
         | none => pyIntDec? g.seq),
      pyIntDec? g.id, pyIntDec? g.device, pyIntDec? g.lqi, pyIntDec? g.rssi with
  | some seq, some nid, some did, some lqi, some rssi =>
    some { name := g.name
           network_id := some nid
           device_id := some did
           profileId := pyUpper g.profile
           clusterId := pyUpper g.cluster
           sourceEndpoint := g.se
           destinationEndpoint := g.de
           groupId := g.group
           sequence := some seq
           lqi := some lqi
           rssi := some rssi
           time := some g.time
           typeTag := some g.ttype
           payload := g.payload.map pyUpper }
  | _, _, _, _, _ => none

/-- Shape of the `payload` value of a structured (JSON) log line: a list of
strings, a single space-separated string, or anything else (line 102-105). -/
inductive JsonPayload
  | strs (l : List PyStr)
  | str (s : PyStr)
  | other
deriving DecidableEq, Repr

/-- A decoded JSON object as consumed by `parse_json_line` (line 106):
every field is optional (`dict.get`). -/
structure JsonRec where
  name : Option PyStr := none
  id : Option Int := none
  deviceId : Option Int := none
  profileId : Option PyStr := none
  clusterId : Option PyStr := none
  sourceEndpoint : Option PyStr := none
  destinationEndpoint : Option PyStr := none
  groupId : Option PyStr := none
  sequence : Option Int := none
  lastHopLqi : Option Int := none
  lastHopRssi : Option Int := none
  time : Option PyStr := none
  ttype : Option PyStr := none
  payload : JsonPayload := .strs []
deriving DecidableEq, Repr

/-- Python `a or b` for an optional string `a` and default `b`:
`None` and the empty string are falsy. -/
def pyOrStr (a : Option PyStr) (b : PyStr) : PyStr :=
  match a with
  | some s => if s.isEmpty then b else s
  | none => b

/-- Record construction of `parse_json_line` (lines 102-106). -/
def parse_json_line_obj (d : JsonRec) : FrameRecord :=
  let pay : List PyStr :=
    match d.payload with
    | .strs l => l.map pyUpper
    | .str s => (pySplitWs s).map pyUpper
    | .other => []
  { name := pyOrStr d.name (pyStr "unknown"),
    network_id := d.id, device_id := d.deviceId,
    profileId := pyUpper (pyOrStr d.profileId []),
    clusterId := pyUpper (pyOrStr d.clusterId []),
    sourceEndpoint := pyOrStr d.sourceEndpoint [],
    destinationEndpoint := pyOrStr d.destinationEndpoint [],
    groupId := pyOrStr d.groupId [],
    sequence := d.sequence, lqi := d.lastHopLqi, rssi := d.lastHopRssi,
    time := d.time, typeTag := d.ttype, payload := pay }

/-! ## Filter chain (`analyze_log`, lines 228-240) -/

/-- Python truthiness of an optional string argument. -/
def pyTruthyOStr (o : Option PyStr) : Bool :=
  match o with
  | some s => !s.isEmpty
  | none => false

/-- Python truthiness of an optional integer argument. -/
def pyTruthyOInt (o : Option Int) : Bool :=
  match o with
  | some v => decide (v ≠ 0)
  | none => false

/-- Python truthiness of an optional list argument. -/
def pyTruthyOList (o : Option (List PyStr)) : Bool :=
  match o with
  | some l => !l.isEmpty
  | none => false

/-- The filter arguments of `analyze_log` (line 200) together with the two
mode toggles the filter chain reads. -/
structure FilterCfg where
  mfr_filter : Option PyStr := none
  device_id_filter : Option Int := none
  device_name_filter : Option PyStr := none
  dni_filter : Option Int := none
  cluster_filters : Option (List PyStr) := none
  unsolicited_only : Bool := false
  include_zdo : Bool := true
deriving DecidableEq, Repr

/-- `dni_mfr_index.get(rec['network_id'])`: dictionary lookup, `None` key
permitted. -/
def indexGet (idx : List (Int × PyStr)) (k : Option Int) : Option PyStr :=
  match k with
  | none => none
  | some i => (idx.find? (fun p => p.1 == i)).map (fun p => p.2)

/-- Python `a or b` on two optional strings (line 229):
the first operand wins when truthy. -/
def pyOrOpt (a b : Option PyStr) : Option PyStr :=
  match a with
  | some s => if s.isEmpty then b else some s
  | none => b

/-- Lines 236-240 of the filter chain: ZDO inclusion toggle, the second
`parse_zcl` call (line 238, which can raise), and the unsolicited-only
rule.  `ok true` means the record reaches the aggregation section. -/
def filterTail (cfg : FilterCfg) (rec : FrameRecord) : Except Unit Bool :=
  if rec.profileId = pyStr "0000" ∧ ¬cfg.include_zdo then .ok false
  else
    match parse_zcl rec.payload with
    | .error e => .error e
    | .ok z =>
      if cfg.unsolicited_only ∧ z.direction ≠ some .server_to_client ∧
          rec.clusterId ≠ pyStr "0019" then
        if ¬(rec.profileId = pyStr "0000") then .ok false else .ok true
      else .ok true

/-- Lines 231-234: the device-id, device-name, DNI and cluster predicates,
each disabled when its argument is falsy. -/
def filterSimple (cfg : FilterCfg) (rec : FrameRecord) : Except Unit Bool :=
  if pyTruthyOInt cfg.device_id_filter ∧ rec.device_id ≠ cfg.device_id_filter then .ok false
  else if pyTruthyOStr cfg.device_name_filter ∧
      ¬isSubList (pyLower (cfg.device_name_filter.getD [])) (pyLower rec.name) then .ok false
  else if pyTruthyOInt cfg.dni_filter ∧ rec.network_id ≠ cfg.dni_filter then .ok false
  else if pyTruthyOList cfg.cluster_filters ∧
      pyUpper rec.clusterId ∉ (cfg.cluster_filters.getD []).map pyUpper then .ok false
  else filterTail cfg rec

/-- The whole per-record filter chain of `analyze_log` (lines 228-240):
`ok true` when the record reaches line 241 (gets aggregated), `ok false`
when a `continue` skips it, `error` when `parse_zcl` raises. -/
def applyFilters (cfg : FilterCfg) (idx : List (Int × PyStr)) (rec : FrameRecord) :
    Except Unit Bool :=
  if pyTruthyOStr cfg.mfr_filter then
    match parse_zcl rec.payload with
    | .error e => .error e
    | .ok ztmp =>
      match pyOrOpt ztmp.manufacturer_code (indexGet idx rec.network_id) with
      | none => .ok false
      | some m =>
        if m.isEmpty then .ok false
        else if pyUpper m ≠ pyUpper (cfg.mfr_filter.getD []) then .ok false
        else filterSimple cfg rec
  else filterSimple cfg rec

/-! ## OTA phase state machine (`analyze_log`, lines 264-285) -/

inductive OtaPhase
  | querying
  | downloading
  | awaiting_upgrade
deriving DecidableEq, Repr

/-- The OTA-session slice of one `devices[name]` aggregate (line 220). -/
structure OtaDev where
  ota_req_mfr : Option PyStr := none
  ota_req_image_type : Option PyStr := none
  ota_req_current_version : Option PyStr := none
  ota_last_offset : Option Nat := none
  ota_max_block_size : Option Nat := none
  ota_blocks_count : Option Nat := none
  ota_completed_download : Option Bool := none
  ota_phase : Option OtaPhase := none
deriving DecidableEq, Repr

/-- Python `f"0x{n:0wX}"`. -/
def fmt0x (w : Nat) (n : Nat) : PyStr := pyStr "0x" ++ pyFormatHex w n

/-- OTA-session slice of the aggregation loop body (lines 238, 254-257 and
264-285) for one record that has already passed the filter chain: the ZDO
branch and non-OTA branches leave the OTA fields untouched, and the phase
machine runs for OTA-cluster records with a command id when the direction
is client-to-server. -/
def otaAggStep (ota_details : Bool) (rec : FrameRecord) (dev : OtaDev) : Except Unit OtaDev :=
  match parse_zcl rec.payload with
  | .error e => .error e
  | .ok z =>
    if rec.profileId = pyStr "0000" then .ok dev
    else if ota_details ∧ rec.clusterId = pyStr "0019" ∧ z.command_id ≠ none then
      if z.direction = some .client_to_server then
        match parse_ota_request_payload rec.payload z with
        | none => .ok dev
        | some meta =>
          if z.command_id = some 0x01 then
            .ok { dev with
                  ota_req_mfr := meta.manufacturer_id.map (fmt0x 4)
                  ota_req_image_type := meta.image_type.map (fmt0x 4)
                  ota_req_current_version := meta.file_version.map (fmt0x 8)
                  ota_phase := some .querying }
          else if z.command_id = some 0x03 then
            let dev1 :=
              match meta.file_offset with
              | some off => { dev with ota_last_offset := some (max (dev.ota_last_offset.getD 0) off) }
              | none => dev
            let dev2 :=
              match meta.max_data_size with
              | some blk => { dev1 with ota_max_block_size := some blk }
              | none => dev1
            .ok { dev2 with
                  ota_blocks_count := some (dev2.ota_blocks_count.getD 0 + 1)
                  ota_phase := some .downloading }
          else if z.command_id = some 0x06 then
            .ok { dev with ota_completed_download := some true, ota_phase := some .awaiting_upgrade }
          else .ok dev
      else .ok dev
    else .ok dev

/-- Folding the aggregation step over a source-ordered sequence of records
already attributed to one device. -/
def processOta (ota_details : Bool) (recs : List FrameRecord) (dev : OtaDev) :
    Except Unit OtaDev :=
  match recs with
  | [] => .ok dev
  | r :: rest =>
    match otaAggStep ota_details r dev with
    | .error e => .error e
    | .ok dev2 => processOta ota_details rest dev2

/-! ## Specification-side helpers and concrete sample frames -/

/-- Value of a hex digit character, defaulting to 0 (only used on
characters that `hexDigitVal?` accepts). -/
def hexValD (c : Char) : Nat := (hexDigitVal? c).getD 0

/-- Big-endian fixed-width hex digit string of `n` (specification-side
description of Python `format(n, '0wX')`). -/
def toDigitsBE : Nat → Nat → List Char
  | 0, _ => []
  | w + 1, n => toDigitsBE w (n / 16) ++ [hexDigitChar (n % 16)]

/-- An inbound OTA Query Next Image Request frame:
ZCL header `fc=01, seq=01, cmd=01`, then field control 0, manufacturer id
0x1233, image type 0x0001, file version 0x00000005. -/
def recOtaQ : FrameRecord :=
  { clusterId := pyStr "0019", profileId := pyStr "0104",
    payload := [pyStr "01", pyStr "01", pyStr "01",
                pyStr "00", pyStr "33", pyStr "12", pyStr "01", pyStr "00",
                pyStr "05", pyStr "00", pyStr "00", pyStr "00"] }

/-- An inbound OTA Image Block Request frame with file offset 0x00000100
and max data size 0x28. -/
def recOtaB100 : FrameRecord :=
  { clusterId := pyStr "0019", profileId := pyStr "0104",
    payload := [pyStr "01", pyStr "02", pyStr "03",
                pyStr "00", pyStr "33", pyStr "12", pyStr "01", pyStr "00",
                pyStr "05", pyStr "00", pyStr "00", pyStr "00",
                pyStr "00", pyStr "01", pyStr "00", pyStr "00", pyStr "28"] }

/-- An inbound OTA Image Block Request frame with file offset 0x00000080. -/
def recOtaB80 : FrameRecord :=
  { clusterId := pyStr "0019", profileId := pyStr "0104",
    payload := [pyStr "01", pyStr "03", pyStr "03",
                pyStr "00", pyStr "33", pyStr "12", pyStr "01", pyStr "00",
                pyStr "05", pyStr "00", pyStr "00", pyStr "00",
                pyStr "80", pyStr "00", pyStr "00", pyStr "00", pyStr "28"] }

/-- The ZCL header decoded from `recOtaQ` / `recOtaB100`'s first bytes. -/
def zQ : ZclRes :=
  { fc := some 1, frame_type := some .cluster, manuf_specific := false,
    direction := some .client_to_server, disable_default_rsp := false,
    sequence := some 1, command_id := some 1 }

def zB100 : ZclRes :=
  { fc := some 1, frame_type := some .cluster, manuf_specific := false,
    direction := some .client_to_server, disable_default_rsp := false,
    sequence := some 2, command_id := some 3 }

def metaQ : OtaMeta :=
  { field_control := some 0, manufacturer_id := some 0x1233,
    image_type := some 1, file_version := some 5 }

def metaB100 : OtaMeta :=
  { field_control := some 0, manufacturer_id := some 0x1233,
    image_type := some 1, file_version := some 5,
    file_offset := some 0x100, max_data_size := some 0x28 }

/-- An Image Block Request payload whose field-control byte is 0x03 (bits 0
and 1 both set) with ten trailing bytes after the fixed 14-byte body —
enough for the 8-byte requesting-node-address and the 16-bit delay. -/
def C2payload : List PyStr :=
  [pyStr "01", pyStr "05", pyStr "03",
   pyStr "03", pyStr "33", pyStr "12", pyStr "01", pyStr "00",
   pyStr "05", pyStr "00", pyStr "00", pyStr "00",
   pyStr "00", pyStr "01", pyStr "00", pyStr "00", pyStr "28",
   pyStr "AA", pyStr "BB", pyStr "CC", pyStr "DD", pyStr "EE",
   pyStr "FF", pyStr "11", pyStr "22", pyStr "33", pyStr "44"]

/-- Text-line match groups whose source endpoint is the lowercase hex
string `ab` (which the regex of line 87 accepts). -/
def gC7 : TextGroups :=
  { name := pyStr "dev", id := pyStr "1", profile := pyStr "0104",
    cluster := pyStr "0006", se := pyStr "ab", de := pyStr "01",
    group := pyStr "0000", seq := pyStr "0A", lqi := pyStr "255",
    rssi := pyStr "-42", time := pyStr "2024-01-01 00:00:00.000",
    ttype := pyStr "zigbee", device := pyStr "7", payload := [pyStr "00"] }

/-- A client-to-server frame on a non-OTA cluster, used to exercise the
unsolicited-only exclusion. -/
def recC6in : FrameRecord :=
  { clusterId := pyStr "0006", profileId := pyStr "0104",
    payload := [pyStr "01", pyStr "07", pyStr "00"] }

/-- Value of a string of hex digits (specification-side view of the fold
inside `hexDigitsVal?`). -/
def hexStrVal (s : PyStr) : Nat := s.foldl (fun x c => x * 16 + hexValD c) 0

/-- The frame record produced by normalizing `gC7`. -/
def rC7 : FrameRecord :=
  { name := pyStr "dev", network_id := some 1, device_id := some 7,
    profileId := pyStr "0104", clusterId := pyStr "0006",
    sourceEndpoint := pyStr "ab", destinationEndpoint := pyStr "01",
    groupId := pyStr "0000", sequence := some 10, lqi := some 255,
    rssi := some (-42), time := some (pyStr "2024-01-01 00:00:00.000"),
    typeTag := some (pyStr "zigbee"), payload := [pyStr "00"] }

/-! ## Character-class and formatting lemmas -/

theorem dropWhile_eq_self_of (p : Char → Bool) (l : List Char)
    (h : ∀ c ∈ l, p c = false) : l.dropWhile p = l := by
  cases l with
  | nil => rfl
  | cons a t => simp [List.dropWhile_cons, h a (by simp)]

theorem pyStrip_eq_self (s : PyStr) (h : ∀ c ∈ s, isPyWs c = false) : pyStrip s = s := by
  unfold pyStrip
  rw [dropWhile_eq_self_of _ _ h, dropWhile_eq_self_of, List.reverse_reverse]
  intro c hc
  exact h c (by simpa using hc)

/-- Everything the later proofs need about one uppercase hex digit
character, established by exhausting the sixteen possible characters. -/
theorem upperHex_char_spec (c : Char) (h : isUpperHexCh c = true) :
    pyUpperChar c = c ∧ isPyWs c = false ∧ c ≠ 'x' ∧ c ≠ 'X' ∧
    hexDigitVal? c = some (hexValD c) ∧ hexValD c < 16 ∧ hexDigitChar (hexValD c) = c := by
  have hm : c ∈ upperHexChars := by simpa [isUpperHexCh] using h
  simp only [upperHexChars] at hm
  fin_cases hm <;> decide

theorem hex_char_upper (c : Char) (h : isHexCh c = true) :
    isUpperHexCh (pyUpperChar c) = true := by
  have hm : c ∈ hexChars := by simpa [isHexCh] using h
  simp only [hexChars] at hm
  fin_cases hm <;> decide

theorem pyUpper_eq_self (s : PyStr) (h : ∀ c ∈ s, isUpperHexCh c = true) :
    pyUpper s = s := by
  induction s with
  | nil => rfl
  | cons a t ih =>
    have ha : pyUpperChar a = a := (upperHex_char_spec a (h a (List.mem_cons_self a t))).1
    have ht : pyUpper t = t := ih (fun c hc => h c (List.mem_cons_of_mem a hc))
    simpa [pyUpper, ha] using ht

theorem pyRemove0X_eq_self : ∀ (l : PyStr), (∀ c ∈ l, c ≠ 'X') → pyRemove0X l = l
  | [], _ => rfl
  | [_], _ => rfl
  | a :: b :: rest, h => by
    have hb : b ≠ 'X' := h b (by simp)
    rw [pyRemove0X, if_neg (by tauto)]
    rw [pyRemove0X_eq_self (b :: rest) (fun c hc => h c (List.mem_cons_of_mem a hc))]

theorem hexFold_ok (l : PyStr) (h : ∀ c ∈ l, isUpperHexCh c = true) :
    ∀ a : Nat, l.foldl hexAccum (some a) = some (l.foldl (fun x c => x * 16 + hexValD c) a) := by
  induction l with
  | nil => intro a; rfl
  | cons c t ih =>
    intro a
    have hc := (upperHex_char_spec c (h c (List.mem_cons_self c t))).2.2.2.2.1
    simp only [List.foldl_cons, hexAccum, hc, Option.map_some']
    exact ih (fun d hd => h d (List.mem_cons_of_mem c hd)) _

theorem pyIntHex_upperHex (s : PyStr) (hne : s ≠ [])
    (h : ∀ c ∈ s, isUpperHexCh c = true) :
    pyIntHex? s = some (hexStrVal s) := by
  have hstrip : pyStrip s = s :=
    pyStrip_eq_self s (fun c hc => (upperHex_char_spec c (h c hc)).2.1)
  have hval : hexDigitsVal? s = some (hexStrVal s) := by
    cases s with
    | nil => exact absurd rfl hne
    | cons c t =>
      show (c :: t).foldl hexAccum (some 0) = _
      exact hexFold_ok (c :: t) h 0
  unfold pyIntHex?
  rw [hstrip]
  split
  · exact absurd (h 'x' (by simp)) (by decide)
  · exact absurd (h 'X' (by simp)) (by decide)
  · exact hval

theorem natToHexRevFuel_irrel : ∀ (f1 f2 n : Nat), n ≤ f1 → n ≤ f2 →
    natToHexRevFuel f1 n = natToHexRevFuel f2 n := by
  intro f1
  induction f1 with
  | zero =>
    intro f2 n h1 _
    have : n = 0 := by omega
    subst this
    cases f2 with
    | zero => rfl
    | succ m => simp [natToHexRevFuel]
  | succ k ih =>
    intro f2 n h1 h2
    cases f2 with
    | zero =>
      have : n = 0 := by omega
      subst this
      simp [natToHexRevFuel]
    | succ m =>
      by_cases hz : n = 0
      · subst hz; simp [natToHexRevFuel]
      · simp only [natToHexRevFuel, if_neg hz]
        have hd : n / 16 < n := Nat.div_lt_self (by omega) (by omega)
        rw [ih m (n / 16) (by omega) (by omega)]

theorem natToHexRev_zero : natToHexRev 0 = [] := rfl

theorem natToHexRev_pos (n : Nat) (h : 0 < n) :
    natToHexRev n = hexDigitChar (n % 16) :: natToHexRev (n / 16) := by
  unfold natToHexRev
  cases n with
  | zero => omega
  | succ m =>
    simp only [natToHexRevFuel, if_neg (Nat.succ_ne_zero m)]
    have hd : (m + 1) / 16 < m + 1 := Nat.div_lt_self (by omega) (by omega)
    rw [natToHexRevFuel_irrel m ((m + 1) / 16) ((m + 1) / 16) (by omega) (le_refl _)]

theorem toDigitsBE_zero : ∀ w, toDigitsBE w 0 = List.replicate w '0' := by
  intro w
  induction w with
  | zero => rfl
  | succ k ih =>
    show toDigitsBE k (0 / 16) ++ [hexDigitChar (0 % 16)] = _
    rw [Nat.zero_div, ih, List.replicate_succ']
    rfl

theorem hexPad_eq : ∀ (w n : Nat), n < 16 ^ w →
    List.replicate (w - (natToHexRev n).length) '0' ++ (natToHexRev n).reverse =
      toDigitsBE w n := by
  intro w
  induction w with
  | zero =>
    intro n hn
    have : n = 0 := by simpa using hn
    subst this
    rfl
  | succ k ih =>
    intro n hn
    rcases Nat.eq_zero_or_pos n with h0 | hpos
    · subst h0
      rw [natToHexRev_zero, toDigitsBE_zero]
      simp
    · rw [natToHexRev_pos n hpos]
      have hlt : n / 16 < 16 ^ k := by
        have hp : (16 : Nat) ^ (k + 1) = 16 ^ k * 16 := pow_succ 16 k
        rw [hp] at hn
        omega
      have hih := ih (n / 16) hlt
      simp only [List.length_cons, List.reverse_cons]
      rw [show k + 1 - ((natToHexRev (n / 16)).length + 1) =
            k - (natToHexRev (n / 16)).length by omega]
      rw [← List.append_assoc, hih]
      rfl

theorem pyFormatHex_eq (w n : Nat) (hw : 0 < w) (h : n < 16 ^ w) :
    pyFormatHex w n = toDigitsBE w n := by
  unfold pyFormatHex
  rcases Nat.eq_zero_or_pos n with h0 | hpos
  · subst h0
    rw [natToHexRev_zero, if_pos rfl, toDigitsBE_zero]
    simp only [List.length_cons, List.length_nil, Nat.zero_add]
    rw [show w = (w - 1) + 1 by omega, List.replicate_succ']
    simp
  · have hne : natToHexRev n ≠ [] := by
      rw [natToHexRev_pos n hpos]; simp
    rw [if_neg hne, List.length_reverse]
    exact hexPad_eq w n h

theorem toDigitsBE_four (va vb vc vd : Nat) (ha : va < 16) (hb : vb < 16)
    (hc : vc < 16) (hd : vd < 16) :
    toDigitsBE 4 (((va * 16 + vb) * 16 + vc) * 16 + vd) =
      [hexDigitChar va, hexDigitChar vb, hexDigitChar vc, hexDigitChar vd] := by
  have e1 : (((va * 16 + vb) * 16 + vc) * 16 + vd) % 16 = vd := by omega
  have e2 : (((va * 16 + vb) * 16 + vc) * 16 + vd) / 16 = (va * 16 + vb) * 16 + vc := by omega
  have e3 : ((va * 16 + vb) * 16 + vc) % 16 = vc := by omega
  have e4 : ((va * 16 + vb) * 16 + vc) / 16 = va * 16 + vb := by omega
  have e5 : (va * 16 + vb) % 16 = vb := by omega
  have e6 : (va * 16 + vb) / 16 = va := by omega
  have e7 : va % 16 = va := by omega
  have e8 : va / 16 = 0 := by omega
  show toDigitsBE 3 _ ++ [hexDigitChar _] = _
  rw [e1, e2]
  show toDigitsBE 2 _ ++ [hexDigitChar _] ++ _ = _
  rw [e3, e4]
  show toDigitsBE 1 _ ++ [hexDigitChar _] ++ _ ++ _ = _
  rw [e5, e6]
  show toDigitsBE 0 _ ++ [hexDigitChar _] ++ _ ++ _ ++ _ = _
  rw [e7, e8]
  rfl

/-- Idempotence of `normalize_mfr_code` on already-normalized four-digit
uppercase hex codes. -/
theorem normalize_idem_core (s : PyStr) (hlen : s.length = 4)
    (h : ∀ c ∈ s, isUpperHexCh c = true) : normalize_mfr_code s = s := by
  have hne : s ≠ [] := by intro hs; rw [hs] at hlen; simp at hlen
  have hstrip : pyStrip s = s :=
    pyStrip_eq_self s (fun c hc => (upperHex_char_spec c (h c hc)).2.1)
  have hupper : pyUpper s = s := pyUpper_eq_self s h
  have hremove : pyRemove0X s = s :=
    pyRemove0X_eq_self s (fun c hc => (upperHex_char_spec c (h c hc)).2.2.2.1)
  have hparse : pyIntHex? s = some (hexStrVal s) := pyIntHex_upperHex s hne h
  unfold normalize_mfr_code
  rw [hstrip, hupper, hremove, hparse]
  rcases s with _ | ⟨a, s⟩
  · exact absurd rfl hne
  rcases s with _ | ⟨b, s⟩
  · simp at hlen
  rcases s with _ | ⟨c, s⟩
  · simp at hlen
  rcases s with _ | ⟨d, s⟩
  · simp at hlen
  have hsnil : s = [] := by
    simp only [List.length_cons] at hlen
    have hz : s.length = 0 := by omega
    exact List.length_eq_zero.mp hz
  subst hsnil
  have sa := upperHex_char_spec a (h a (by simp))
  have sb := upperHex_char_spec b (h b (by simp))
  have sc := upperHex_char_spec c (h c (by simp))
  have sd := upperHex_char_spec d (h d (by simp))
  have hv : hexStrVal [a, b, c, d] =
      ((hexValD a * 16 + hexValD b) * 16 + hexValD c) * 16 + hexValD d := by
    simp only [hexStrVal, List.foldl_cons, List.foldl_nil]
    omega
  rw [hv]
  have hbound : ((hexValD a * 16 + hexValD b) * 16 + hexValD c) * 16 + hexValD d < 16 ^ 4 := by
    have := sa.2.2.2.2.2.1
    have := sb.2.2.2.2.2.1
    have := sc.2.2.2.2.2.1
    have := sd.2.2.2.2.2.1
    norm_num
    omega
  have hmod : (((hexValD a * 16 + hexValD b) * 16 + hexValD c) * 16 + hexValD d) % 2 ^ 16 =
      ((hexValD a * 16 + hexValD b) * 16 + hexValD c) * 16 + hexValD d := by
    apply Nat.mod_eq_of_lt
    calc ((hexValD a * 16 + hexValD b) * 16 + hexValD c) * 16 + hexValD d < 16 ^ 4 := hbound
    _ ≤ 2 ^ 16 := by norm_num
  show pyFormatHex 4
      ((((hexValD a * 16 + hexValD b) * 16 + hexValD c) * 16 + hexValD d) % 2 ^ 16) =
    [a, b, c, d]
  rw [hmod, pyFormatHex_eq 4 _ (by omega) hbound,
    toDigitsBE_four _ _ _ _ sa.2.2.2.2.2.1 sb.2.2.2.2.2.1 sc.2.2.2.2.2.1 sd.2.2.2.2.2.1,
    sa.2.2.2.2.2.2, sb.2.2.2.2.2.2, sc.2.2.2.2.2.2, sd.2.2.2.2.2.2]

theorem pyUpper_all_upperHex (s : PyStr) (h : s.all isHexCh = true) :
    (pyUpper s).all isUpperHexCh = true := by
  rw [List.all_eq_true] at h ⊢
  intro c hc
  rw [pyUpper, List.mem_map] at hc
  obtain ⟨d, hd, rfl⟩ := hc
  exact hex_char_upper d (h d hd)

theorem filterSimple_ne_ok_true (cfg : FilterCfg) (rec : FrameRecord)
    (h : filterTail cfg rec ≠ .ok true) : filterSimple cfg rec ≠ .ok true := by
  unfold filterSimple
  split_ifs <;> simp_all

theorem applyFilters_ne_ok_true (cfg : FilterCfg) (idx : List (Int × PyStr))
    (rec : FrameRecord) (h : filterTail cfg rec ≠ .ok true) :
    applyFilters cfg idx rec ≠ .ok true := by
  have hs := filterSimple_ne_ok_true cfg rec h
  unfold applyFilters
  split
  · split
    · simp
    · split
      · simp
      · split_ifs <;> simp_all
  · exact hs

/-! ## Claim theorems -/

/-- Claim C1, counterexample.  The claim says that for a 3-byte payload
with the manufacturer-specific bit (bit 2) set, `parse_zcl` leaves the
manufacturer code unset.  On the concrete payload `04 9C 11` (exactly 3
bytes, bit 2 of the frame control set) the decoder in fact sets the
manufacturer code to `119C`: only sequence and command id are unset. -/
theorem C1_counterexample :
    parse_zcl [pyStr "04", pyStr "9C", pyStr "11"] =
      .ok { fc := some 4, frame_type := some .global, manuf_specific := true,
            direction := some .client_to_server, disable_default_rsp := false,
            manufacturer_code := some (pyStr "119C"),
            sequence := none, command_id := none } := by decide

/-- Claim C1, amended.  For every payload of exactly 3 byte strings whose
first byte parses as hex with bit 2 set and whose bytes 1-2 parse as hex,
`parse_zcl` returns a header with the frame-type and flag fields set, the
manufacturer code set to the little-endian 16-bit code of bytes 1-2, and
the sequence number and command id unset. -/
theorem C1_theorem (b0 b1 b2 : PyStr) (fc lo hi : Nat)
    (h0 : pyIntHex? b0 = some fc) (hm : fc &&& 0x04 ≠ 0)
    (h1 : pyIntHex? b1 = some lo) (h2 : pyIntHex? b2 = some hi) :
    parse_zcl [b0, b1, b2] =
      .ok { fc := some fc,
            frame_type := some (if fc &&& 0x03 = 0x01 then .cluster else .global),
            manuf_specific := true,
            direction := some (if fc &&& 0x08 ≠ 0 then .server_to_client else .client_to_server),
            disable_default_rsp := decide (fc &&& 0x10 ≠ 0),
            manufacturer_code := some (pyFormatHex 4 ((hi <<< 8) ||| lo)),
            sequence := none, command_id := none } := by
  unfold parse_zcl
  simp [h0, h1, h2, hm]

/-- Witness for C1_theorem at the payload `04 9C 11`. -/
theorem C1_witness :
    parse_zcl [pyStr "04", pyStr "9C", pyStr "11"] =
      .ok { fc := some 4,
            frame_type := some (if 4 &&& 0x03 = 0x01 then .cluster else .global),
            manuf_specific := true,
            direction := some (if 4 &&& 0x08 ≠ 0 then .server_to_client else .client_to_server),
            disable_default_rsp := decide (4 &&& 0x10 ≠ 0),
            manufacturer_code := some (pyFormatHex 4 ((17 <<< 8) ||| 156)),
            sequence := none, command_id := none } :=
  C1_theorem (pyStr "04") (pyStr "9C") (pyStr "11") 4 156 17
    (by decide) (by decide) (by decide) (by decide)

/-- Claim C2, counterexample.  `C2payload` is an Image Block Request whose
field-control byte is 0x03 (bits 0 and 1 set) with ten trailing bytes after
the fixed body (enough for the 8-byte node address and the 16-bit delay),
yet the decoded result contains neither a requesting-node-address nor a
block-request-delay field. -/
theorem C2_counterexample :
    (parse_zcl C2payload).map (fun z => (parse_ota_request_payload C2payload z).map
        (fun m => (m.field_control, m.request_node_address, m.block_request_delay))) =
      .ok (some (some 3, none, none)) ∧
    (C2payload.drop 3).length = 14 + 10 := by decide

/-- Claim C2, amended.  The OTA Request Decoder never reads the
field-control-gated optional fields: every successfully decoded request —
whatever its field-control bits and however many trailing bytes remain —
contains no requesting-node-address and no block-request-delay field. -/
theorem C2_theorem (payload : List PyStr) (z : ZclRes) (m : OtaMeta)
    (hm : parse_ota_request_payload payload z = some m) :
    m.request_node_address = none ∧ m.block_request_delay = none := by
  unfold parse_ota_request_payload at hm
  split at hm
  · exact absurd hm (by simp)
  · unfold parse_ota_data at hm
    split_ifs at hm <;> (repeat split at hm) <;> simp at hm <;>
      (subst hm; exact ⟨rfl, rfl⟩)

/-- Witness for C2_theorem at `C2payload`. -/
theorem C2_witness :
    OtaMeta.request_node_address
        { field_control := some 3, manufacturer_id := some 0x1233, image_type := some 1,
          file_version := some 5, file_offset := some 0x100, max_data_size := some 0x28 } =
      none ∧
    OtaMeta.block_request_delay
        { field_control := some 3, manufacturer_id := some 0x1233, image_type := some 1,
          file_version := some 5, file_offset := some 0x100, max_data_size := some 0x28 } =
      none :=
  C2_theorem C2payload
    { fc := some 1, frame_type := some .cluster, manuf_specific := false,
      direction := some .client_to_server, disable_default_rsp := false,
      sequence := some 5, command_id := some 3 }
    { field_control := some 3, manufacturer_id := some 0x1233, image_type := some 1,
      file_version := some 5, file_offset := some 0x100, max_data_size := some 0x28 }
    (by decide)

/-- Claim C3, counterexample.  The claim says the OTA phase only moves
forward (never e.g. downloading back to querying).  Feeding Query-Next-
Image, Image-Block, then Query-Next-Image again moves the device from
`downloading` back to `querying`. -/
theorem C3_counterexample :
    (processOta true [recOtaQ, recOtaB100] {}).map OtaDev.ota_phase =
      .ok (some .downloading) ∧
    (processOta true [recOtaQ, recOtaB100, recOtaQ] {}).map OtaDev.ota_phase =
      .ok (some .querying) := by decide

/-- Claim C3, amended.  The stored phase always follows the **last**
successfully decoded inbound OTA request — `querying` after a 0x01,
`downloading` after a 0x03, `awaiting_upgrade` after a 0x06 — whatever the
previous phase was, so the phase can also move backward. -/
theorem C3_theorem (rec : FrameRecord) (dev : OtaDev) (z : ZclRes) (meta : OtaMeta)
    (hz : parse_zcl rec.payload = .ok z)
    (hp : rec.profileId ≠ pyStr "0000")
    (hc : rec.clusterId = pyStr "0019")
    (hd : z.direction = some .client_to_server)
    (hm : parse_ota_request_payload rec.payload z = some meta) :
    (z.command_id = some 0x01 →
       (otaAggStep true rec dev).map OtaDev.ota_phase = .ok (some .querying)) ∧
    (z.command_id = some 0x03 →
       (otaAggStep true rec dev).map OtaDev.ota_phase = .ok (some .downloading)) ∧
    (z.command_id = some 0x06 →
       (otaAggStep true rec dev).map OtaDev.ota_phase = .ok (some .awaiting_upgrade)) := by
  unfold otaAggStep
  rw [hz]
  refine ⟨?_, ?_, ?_⟩ <;> intro hcmd <;> simp [hp, hc, hd, hm, hcmd, Except.map]

/-- Witness for C3_theorem: a Query-Next-Image frame from a fresh device
sets the phase to querying. -/
theorem C3_witness :
    (otaAggStep true recOtaQ {}).map OtaDev.ota_phase = .ok (some .querying) :=
  (C3_theorem recOtaQ {} zQ metaQ (by decide) (by decide) (by decide)
    (by decide) (by decide)).1 (by decide)

/-- Claim C4 concerns a code bug: `parse_zcl` guards only the first byte's
`int` conversion with `try/except`; a non-hex byte at position 1 makes the
unguarded `int(payload_hex[idx],16)` of line 125 raise `ValueError`, so the
decoder does not terminate normally on the payload `00 ZZ 00`, contradicting
the specified no-exception policy. -/
theorem C4_theorem : parse_zcl [pyStr "00", pyStr "ZZ", pyStr "00"] = .error () := by decide

/-- Claim C5.  First part: on every successfully decoded inbound Image
Block Request, the stored last-offset becomes the maximum of the previous
value (0 when unset) and the new offset — a monotonic max, not a last
write.  Second part: the spec's concrete scenario — Query-Next-Image, then
Image-Block at offset 0x100, then Image-Block at offset 0x80 — ends in
phase `downloading` with last-offset 0x100. -/
theorem C5_theorem :
    (∀ (rec : FrameRecord) (dev : OtaDev) (z : ZclRes) (meta : OtaMeta) (off : Nat),
        parse_zcl rec.payload = .ok z →
        rec.profileId ≠ pyStr "0000" →
        rec.clusterId = pyStr "0019" →
        z.direction = some .client_to_server →
        parse_ota_request_payload rec.payload z = some meta →
        z.command_id = some 0x03 →
        meta.file_offset = some off →
        (otaAggStep true rec dev).map OtaDev.ota_last_offset =
          .ok (some (max (dev.ota_last_offset.getD 0) off))) ∧
    (processOta true [recOtaQ, recOtaB100, recOtaB80] {}).map
        (fun d => (d.ota_phase, d.ota_last_offset)) =
      .ok (some .downloading, some 0x100) := by
  constructor
  · intro rec dev z meta off hz hp hc hd hm hcmd hoff
    unfold otaAggStep
    rw [hz]
    cases hblk : meta.max_data_size <;>
      simp [hp, hc, hd, hm, hcmd, hoff, hblk, Except.map]
  · decide

/-- Witness for C5_theorem at an Image Block Request with offset 0x100 on a
fresh device. -/
theorem C5_witness :
    (otaAggStep true recOtaB100 {}).map OtaDev.ota_last_offset = .ok (some (max 0 0x100)) :=
  C5_theorem.1 recOtaB100 {} zB100 metaB100 0x100 (by decide) (by decide)
    (by decide) (by decide) (by decide) (by decide) (by decide)

/-- Claim C9.  `normalize_mfr_code` is idempotent on already-normalized
codes (four uppercase hex digits), and `0x119c`, `119c` and `119C` all
normalize to `119C`. -/
theorem C9_theorem :
    (∀ s : PyStr, s.length = 4 → (∀ c ∈ s, isUpperHexCh c = true) →
        normalize_mfr_code s = s) ∧
    normalize_mfr_code (pyStr "0x119c") = pyStr "119C" ∧
    normalize_mfr_code (pyStr "119c") = pyStr "119C" ∧
    normalize_mfr_code (pyStr "119C") = pyStr "119C" :=
  ⟨normalize_idem_core, by decide, by decide, by decide⟩

/-- Witness for C9_theorem at the already-normalized code `ABCD`. -/
theorem C9_witness : normalize_mfr_code (pyStr "ABCD") = pyStr "ABCD" :=
  C9_theorem.1 (pyStr "ABCD") (by decide) (by decide)

/-- Claim C6.  With the unsolicited-only filter enabled: (1) a record whose
ZCL direction is not server-to-client, whose cluster is not the OTA cluster
0x0019 and which is not a ZDO frame (profile id 0000) never reaches the
aggregation section; (2) a record on the OTA cluster reaches aggregation
under a configuration with no other filters, regardless of its direction. -/
theorem C6_theorem :
    (∀ (cfg : FilterCfg) (idx : List (Int × PyStr)) (rec : FrameRecord),
        cfg.unsolicited_only = true →
        rec.clusterId ≠ pyStr "0019" →
        rec.profileId ≠ pyStr "0000" →
        (∀ z, parse_zcl rec.payload = .ok z → z.direction ≠ some .server_to_client) →
        applyFilters cfg idx rec ≠ .ok true) ∧
    (∀ (idx : List (Int × PyStr)) (rec : FrameRecord) (z : ZclRes),
        rec.clusterId = pyStr "0019" →
        rec.profileId ≠ pyStr "0000" →
        parse_zcl rec.payload = .ok z →
        applyFilters { unsolicited_only := true } idx rec = .ok true) := by
  constructor
  · intro cfg idx rec hu hc hp hd
    apply applyFilters_ne_ok_true
    unfold filterTail
    rw [if_neg (by simp [hp])]
    cases hz : parse_zcl rec.payload with
    | error e => simp
    | ok z => simp [hu, hd z hz, hc, hp]
  · intro idx rec z hc hp hz
    unfold applyFilters filterSimple filterTail
    simp [pyTruthyOStr, pyTruthyOInt, pyTruthyOList, hz, hp, hc]

/-- Witness for C6_theorem: a client-to-server On/Off-cluster frame is
excluded, while an OTA-cluster frame is retained. -/
theorem C6_witness :
    applyFilters { unsolicited_only := true } [] recC6in ≠ .ok true ∧
    applyFilters { unsolicited_only := true } [] recOtaQ = .ok true := by
  constructor
  · exact C6_theorem.1 { unsolicited_only := true } [] recC6in rfl (by decide) (by decide)
      (by
        intro z hz
        have he : parse_zcl recC6in.payload =
            .ok { fc := some 1, frame_type := some .cluster, manuf_specific := false,
                  direction := some .client_to_server, disable_default_rsp := false,
                  sequence := some 7, command_id := some 0 } := by decide
        rw [he] at hz
        injection hz with h2
        rw [← h2]
        decide)
  · exact C6_theorem.2 [] recOtaQ zQ (by decide) (by decide) (by decide)

/-- Claim C7, counterexample.  The claim says every hex-looking field of a
normalized record is an uppercase fixed-width hex string.  The text line
groups `gC7` satisfy the regex constraints with source endpoint `ab`, and
the normalized record carries `sourceEndpoint = "ab"`, which is not
uppercase. -/
theorem C7_counterexample :
    textGroupsWF gC7 = true ∧
    (parse_text_line_groups gC7).map FrameRecord.sourceEndpoint = some (pyStr "ab") ∧
    pyUpper (pyStr "ab") ≠ pyStr "ab" := by decide

/-- Claim C7, amended.  Both normalizers uppercase the cluster id, the
profile id and every payload byte (the text grammar additionally makes
them fixed-width), but the source endpoint, destination endpoint and group
id are carried through verbatim, without uppercasing. -/
theorem C7_theorem :
    (∀ (g : TextGroups) (r : FrameRecord),
        textGroupsWF g = true →
        parse_text_line_groups g = some r →
        r.clusterId = pyUpper g.cluster ∧ r.clusterId.length = 4 ∧
          r.clusterId.all isUpperHexCh = true ∧
        r.profileId = pyUpper g.profile ∧ r.profileId.length = 4 ∧
          r.profileId.all isUpperHexCh = true ∧
        r.payload = g.payload.map pyUpper ∧
          (∀ b ∈ r.payload, b.length = 2 ∧ b.all isUpperHexCh = true) ∧
        r.sourceEndpoint = g.se ∧ r.destinationEndpoint = g.de ∧ r.groupId = g.group) ∧
    (∀ d : JsonRec,
        (parse_json_line_obj d).clusterId = pyUpper (pyOrStr d.clusterId []) ∧
        (parse_json_line_obj d).profileId = pyUpper (pyOrStr d.profileId []) ∧
        (parse_json_line_obj d).sourceEndpoint = pyOrStr d.sourceEndpoint [] ∧
        (parse_json_line_obj d).destinationEndpoint = pyOrStr d.destinationEndpoint [] ∧
        (parse_json_line_obj d).groupId = pyOrStr d.groupId []) := by
  constructor
  · intro g r hwf hm
    simp only [textGroupsWF, Bool.and_eq_true, Bool.or_eq_true, beq_iff_eq] at hwf
    obtain ⟨⟨⟨⟨⟨⟨⟨⟨⟨⟨_, hprof⟩, hclus⟩, _⟩, _⟩, _⟩, _⟩, _⟩, _⟩, _⟩, hpay⟩ := hwf
    unfold parse_text_line_groups at hm
    (repeat split at hm) <;> simp at hm
    subst hm
    refine ⟨rfl, ?_, ?_, rfl, ?_, ?_, rfl, ?_, rfl, rfl, rfl⟩
    · simp [pyUpper, hclus.1]
    · exact pyUpper_all_upperHex g.cluster hclus.2
    · simp [pyUpper, hprof.1]
    · exact pyUpper_all_upperHex g.profile hprof.2
    · intro b hb
      simp only [List.mem_map] at hb
      obtain ⟨b0, hb0, rfl⟩ := hb
      have hb0wf := (List.all_eq_true.mp hpay.2) b0 hb0
      simp only [Bool.and_eq_true, beq_iff_eq] at hb0wf
      exact ⟨by simp [pyUpper, hb0wf.1], pyUpper_all_upperHex b0 hb0wf.2⟩
  · intro d
    exact ⟨rfl, rfl, rfl, rfl, rfl⟩

/-- Witness for C7_theorem at the sample groups `gC7` and the record they
normalize to. -/
theorem C7_witness :
    rC7.sourceEndpoint = gC7.se ∧ rC7.destinationEndpoint = gC7.de ∧ rC7.groupId = gC7.group :=
  (C7_theorem.1 gC7 rC7 (by decide) (by decide)).2.2.2.2.2.2.2.2

/-- Claim C8.  The OTA Request Decoder is all-or-nothing: a missing command
id, a command id other than 0x01/0x03/0x06, or fewer bytes after the ZCL
header than the shape's fixed minimum all yield `none`; and whenever it
returns a result, every field of that command's shape is filled. -/
theorem C8_theorem (payload : List PyStr) (z : ZclRes) :
    (z.command_id = none → parse_ota_request_payload payload z = none) ∧
    (∀ c, z.command_id = some c → c ≠ 0x01 → c ≠ 0x03 → c ≠ 0x06 →
        parse_ota_request_payload payload z = none) ∧
    (∀ c, z.command_id = some c →
        (payload.drop (otaHeaderLen z)).length < otaMinLen c →
        parse_ota_request_payload payload z = none) ∧
    (∀ m, parse_ota_request_payload payload z = some m →
        (z.command_id = some 0x01 →
            m.field_control.isSome ∧ m.manufacturer_id.isSome ∧
            m.image_type.isSome ∧ m.file_version.isSome) ∧
        (z.command_id = some 0x03 →
            m.field_control.isSome ∧ m.manufacturer_id.isSome ∧ m.image_type.isSome ∧
            m.file_version.isSome ∧ m.file_offset.isSome ∧ m.max_data_size.isSome) ∧
        (z.command_id = some 0x06 →
            m.status.isSome ∧ m.manufacturer_id.isSome ∧
            m.image_type.isSome ∧ m.file_version.isSome)) := by
  refine ⟨?_, ?_, ?_, ?_⟩
  · intro h
    simp [parse_ota_request_payload, h]
  · intro c hc h1 h3 h6
    simp [parse_ota_request_payload, parse_ota_data, hc, h1, h3, h6]
  · intro c hc hlen
    simp only [parse_ota_request_payload, hc]
    unfold parse_ota_data
    by_cases he : (payload.drop (otaHeaderLen z)).isEmpty
    · rw [if_pos he]
    · rw [if_neg he]
      by_cases h1 : c = 0x01
      · subst h1
        rw [if_pos rfl, if_pos hlen]
      · rw [if_neg h1]
        by_cases h3 : c = 0x03
        · subst h3
          rw [if_pos rfl, if_pos hlen]
        · rw [if_neg h3]
          by_cases h6 : c = 0x06
          · subst h6
            rw [if_pos rfl, if_pos hlen]
          · rw [if_neg h6]
  · intro m hm
    unfold parse_ota_request_payload at hm
    split at hm
    · exact absurd hm (by simp)
    · next cmd hcmd =>
      unfold parse_ota_data at hm
      split_ifs at hm with he h1 hl1 h3 hl3 h6 hl6 <;> (repeat split at hm) <;>
        simp at hm <;> subst hm <;>
        refine ⟨fun hq => ?_, fun hq => ?_, fun hq => ?_⟩ <;>
        (rw [hcmd] at hq; injection hq with hq2) <;> simp_all

/-- Witness for C8_theorem: unknown command 0x02 and a too-short Image
Block Request body both decode to `none`. -/
theorem C8_witness :
    parse_ota_request_payload [pyStr "01", pyStr "05", pyStr "02", pyStr "00"]
        { command_id := some 0x02 } = none ∧
    parse_ota_request_payload [pyStr "01", pyStr "05", pyStr "03", pyStr "00"]
        { command_id := some 0x03 } = none := by
  constructor
  · exact (C8_theorem [pyStr "01", pyStr "05", pyStr "02", pyStr "00"]
      { command_id := some 0x02 }).2.1 0x02 rfl (by decide) (by decide) (by decide)
  · exact (C8_theorem [pyStr "01", pyStr "05", pyStr "03", pyStr "00"]
      { command_id := some 0x03 }).2.2.1 0x03 rfl (by decide)

/-- Claim C10.  Falsy filter arguments — device id 0, DNI 0x0000, empty
manufacturer string, empty device-name string — disable their predicates:
the filter chain behaves exactly as if those filters were not configured,
for every record and index. -/
theorem C10_theorem (cluster_filters : Option (List PyStr)) (uns zdo : Bool)
    (idx : List (Int × PyStr)) (rec : FrameRecord) :
    applyFilters
        { mfr_filter := some [], device_id_filter := some 0,
          device_name_filter := some [], dni_filter := some 0,
          cluster_filters := cluster_filters, unsolicited_only := uns,
          include_zdo := zdo } idx rec =
      applyFilters
        { mfr_filter := none, device_id_filter := none,
          device_name_filter := none, dni_filter := none,
          cluster_filters := cluster_filters, unsolicited_only := uns,
          include_zdo := zdo } idx rec := by
  unfold applyFilters filterSimple filterTail
  simp [pyTruthyOStr, pyTruthyOInt, pyTruthyOList]

end ZigbeeLog
